import Mathlib

/-!
Verification development for the Finverse market-data frontend.

The definitions below are a shallow embedding of the JavaScript source:
* `src/hooks/useMarketApi.js` — the singleton WebSocket (`getWebSocket`),
  the per-symbol load (`loadInitial`), the live-tick handler (`onMessage`)
  and the effect cleanup;
* `src/pages/Dashboard.jsx` — the paper-trading handler (`handleTrade`).

JavaScript numbers are modelled by `JSNum` (a rational together with the
special values `NaN`, `Infinity`, `-Infinity`); untyped JSON values by
`JSVal`.  React `useState` state is threaded explicitly through pure
functions.
-/

namespace Finverse

/-- A JavaScript number: `NaN`, `Infinity`, `-Infinity` or a finite value.
Finite values are modelled as rationals (the claims under study concern
structure, ordering and exact arithmetic on representable inputs, not
floating-point rounding). -/
inductive JSNum where
  | nan
  | inf
  | ninf
  | fin (q : ℚ)
deriving DecidableEq, Repr

/-- `isNaN(n)` for a number `n`. -/
def JSNum.isNaN : JSNum → Bool
  | .nan => true
  | _ => false

/-- `Math.max(a, b)`: `NaN` propagates, otherwise the larger value. -/
def jsMax : JSNum → JSNum → JSNum
  | .nan, _ => .nan
  | _, .nan => .nan
  | .inf, _ => .inf
  | _, .inf => .inf
  | .ninf, b => b
  | a, .ninf => a
  | .fin a, .fin b => .fin (max a b)

/-- `Math.min(a, b)`: `NaN` propagates, otherwise the smaller value. -/
def jsMin : JSNum → JSNum → JSNum
  | .nan, _ => .nan
  | _, .nan => .nan
  | .ninf, _ => .ninf
  | _, .ninf => .ninf
  | .inf, b => b
  | a, .inf => a
  | .fin a, .fin b => .fin (min a b)

/-- JavaScript subtraction `a - b` on numbers. -/
def jsSub : JSNum → JSNum → JSNum
  | .nan, _ => .nan
  | _, .nan => .nan
  | .inf, .inf => .nan
  | .inf, _ => .inf
  | .ninf, .ninf => .nan
  | .ninf, _ => .ninf
  | .fin _, .inf => .ninf
  | .fin _, .ninf => .inf
  | .fin a, .fin b => .fin (a - b)

/-- An untyped JSON / JavaScript value, as far as the embedded code
inspects one: `undefined`, `null`, booleans, numbers and strings.
(Objects and arrays are given dedicated structures where the code relies
on their shape.) -/
inductive JSVal where
  | undef
  | null
  | bool (b : Bool)
  | num (n : JSNum)
  | str (s : String)
deriving DecidableEq, Repr

/-- JavaScript truthiness: `undefined`, `null`, `false`, `±0`, `NaN` and
`""` are falsy, everything else truthy. -/
def truthy : JSVal → Bool
  | .undef => false
  | .null => false
  | .bool b => b
  | .num .nan => false
  | .num (.fin q) => q ≠ 0
  | .num _ => true
  | .str s => s ≠ ""

/-- Value of a non-empty list of decimal digit characters, `none` when a
non-digit occurs. -/
def decDigitsAux : List Char → ℕ → Option ℕ
  | [], acc => some acc
  | c :: cs, acc =>
    if c.isDigit then decDigitsAux cs (acc * 10 + (c.toNat - 48)) else none

/-- All-digit check with value; the empty list is allowed and denotes 0
(used for the integer or fractional part of a decimal literal when the
other part is present). -/
def decDigits (cs : List Char) : Option ℕ := decDigitsAux cs 0

/-- Unsigned decimal literal `digits[.digits]`; at least one digit must be
present overall.  (Exponent notation, hex literals and whitespace
trimming are not modelled; no input of this development uses them.) -/
def parseUnsigned (cs : List Char) : Option ℚ :=
  let intPart := cs.takeWhile (· ≠ '.')
  let rest := cs.dropWhile (· ≠ '.')
  match rest with
  | [] => (decDigits intPart).map (fun n => (n : ℚ))
  | _ :: frac =>
    if frac.contains '.' then none
    else if intPart.isEmpty && frac.isEmpty then none
    else
      match decDigits intPart, decDigits frac with
      | some n, some f => some ((n : ℚ) + (f : ℚ) / (10 : ℚ) ^ frac.length)
      | _, _ => none

/-- String-to-number coercion (`Number(s)` on a string). -/
def parseNumStr (s : String) : JSNum :=
  if s = "" then .fin 0
  else if s = "Infinity" ∨ s = "+Infinity" then .inf
  else if s = "-Infinity" then .ninf
  else
    match s.data with
    | '-' :: rest =>
      match parseUnsigned rest with
      | some q => .fin (-q)
      | none => .nan
    | '+' :: rest =>
      match parseUnsigned rest with
      | some q => .fin q
      | none => .nan
    | cs =>
      match parseUnsigned cs with
      | some q => .fin q
      | none => .nan

/-- `Number(v)`: the JavaScript number coercion applied by the source to
row fields and tick prices. -/
def toNumber : JSVal → JSNum
  | .undef => .nan
  | .null => .fin 0
  | .bool b => .fin (if b then 1 else 0)
  | .num n => n
  | .str s => parseNumStr s

/-- ECMAScript integer truncation (toward zero) of a finite number. -/
def jsTrunc (q : ℚ) : ℤ := if 0 ≤ q then ⌊q⌋ else ⌈q⌉

/-- Time clip of a numeric time value: `NaN` outside ±8.64e15 ms,
otherwise the truncated integer instant. -/
def dateClamp : JSNum → JSNum
  | .fin q => if |q| ≤ 8640000000000000 then .fin (jsTrunc q) else .nan
  | _ => .nan

/-- `new Date(v).getTime()`.  Numeric (and numeric-coercible) inputs
follow the ECMAScript time clip; date strings are conservatively modelled
as unparsable (`NaN`) — no claim of this development feeds a string
timestamp whose parse outcome matters, and the code's own guard
`isNaN(dateObj.getTime())` is what the theorems quantify over. -/
def jsDateTime : JSVal → JSNum
  | .num n => dateClamp n
  | .str _ => .nan
  | v => dateClamp (toNumber v)

/-! ## Data model of `useMarketApi` (src/hooks/useMarketApi.js) -/

/-- The `ohlc` sub-object of a quote snapshot; the tick handler reads only
`prev.ohlc.open`, the other fields are carried opaquely. -/
structure OHLC where
  «open» : JSVal
  high : JSVal
  low : JSVal
  close : JSVal
deriving DecidableEq, Repr

/-- A quote object as held in the `quote` state.  The snapshot arrives as
opaque JSON; the tick handler reads `ohlc.open` and `net_change` and
writes `last_price`, `timestamp` and `net_change`.  The `timestamp`
written by a tick is `ts.toISOString()`; the ISO string is represented by
the numeric instant it denotes (`JSVal.num`), an injective rendering. -/
structure Quote where
  last_price : JSVal
  net_change : JSVal
  timestamp : JSVal
  ohlc : Option OHLC
  name : JSVal
deriving DecidableEq, Repr

/-- One point of the line-chart series: `{ t: dateObj, y: number }`.  The
`Date` object `t` is represented by its time value (`getTime()`). -/
structure LinePoint where
  t : JSNum
  y : JSNum
deriving DecidableEq, Repr

/-- One candlestick datum `{ x, o, h, l, c }` (x = epoch milliseconds). -/
structure Candle where
  x : JSNum
  o : JSNum
  h : JSNum
  l : JSNum
  c : JSNum
deriving DecidableEq, Repr

/-- The `ltpc` sub-object of a feed entry; `ltp` is the raw JSON value of
`feed.ltpc.ltp` (`JSVal.undef` when the property is absent). -/
structure Ltpc where
  ltp : JSVal
deriving DecidableEq, Repr

/-- One entry of the inbound `feeds` map.  `ltpc = none` models an absent
(or falsy-primitive) `ltpc` property, which the guard
`feed && feed.ltpc && feed.ltpc.ltp` rejects. -/
structure Feed where
  ltpc : Option Ltpc
deriving DecidableEq, Repr

/-- A parsed WebSocket message.  Messages whose `type` is not
`"live_feed"` or that lack a truthy `feeds` object are ignored by
`onMessage`; they are collapsed into `other`. -/
inductive WsMessage where
  | liveFeed (currentTs : JSVal) (feeds : List (String × Feed))
  | other
deriving DecidableEq, Repr

/-- The per-hook React state surfaced by `useMarketApi`:
`{ loading, error, quote, candles, ohlcCandles }`. -/
structure SessionState where
  loading : Bool
  error : Option String
  quote : Option Quote
  candles : List LinePoint
  ohlcCandles : List Candle
deriving DecidableEq, Repr

/-- The hook state together with the mutable `instrumentKeyRef`. -/
structure HookState where
  st : SessionState
  instrumentKey : Option String
deriving DecidableEq, Repr

/-- A control frame written on the WebSocket
(`{type:"subscribe"|"unsubscribe", key}`). -/
inductive Frame where
  | sub (key : String)
  | unsub (key : String)
deriving DecidableEq, Repr

/-- `currentKey.replace('|', ':')` — JavaScript `String.replace` with a
string pattern replaces only the FIRST occurrence. -/
def replaceFirstPipe : List Char → List Char
  | [] => []
  | ch :: cs => if ch = '|' then ':' :: cs else ch :: replaceFirstPipe cs

/-- The normalized instrument key computed by `loadInitial`
(`const normalizedKey = currentKey.replace('|', ':')`). -/
def normalizeKey (s : String) : String := ⟨replaceFirstPipe s.data⟩

/-! ## Tick application (`onMessage`, src/hooks/useMarketApi.js:304-357) -/

/-- Property lookup `feeds[key]` on the feeds object. -/
def lookupFeed (feeds : List (String × Feed)) (key : String) : Option Feed :=
  (feeds.find? (fun p => p.1 = key)).map (·.2)

/-- The `setQuote` updater of the tick handler:
`{...prev, last_price: ltp, timestamp: ts.toISOString(), net_change: (prev?.ohlc?.open) ? (ltp - prev.ohlc.open) : prev?.net_change}`.
A `null` previous quote spreads to the empty object, i.e. all fields
`undefined`. -/
def updateQuote (prev : Option Quote) (ltp ts : JSNum) : Quote :=
  let base := prev.getD ⟨.undef, .undef, .undef, none, .undef⟩
  let openVal : JSVal := match base.ohlc with
    | some o => o.«open»
    | none => .undef
  { base with
    last_price := .num ltp
    timestamp := .num ts
    net_change :=
      if truthy openVal then .num (jsSub ltp (toNumber openVal))
      else base.net_change }

/-- The `setCandles` updater of the tick handler: append the new point,
then `updated.slice(-2000)` (keep the last 2000 points). -/
def slideCandles (prev : List LinePoint) (p : LinePoint) : List LinePoint :=
  let updated := prev ++ [p]
  updated.drop (updated.length - 2000)

/-- The `setOhlcCandles` updater of the tick handler: if the series is
empty return `[]`; otherwise update the last candle in place with
`c = ltp`, `h = Math.max(h, ltp)`, `l = Math.min(l, ltp)`. -/
def bumpLastCandle (prev : List Candle) (ltp : JSNum) : List Candle :=
  match prev.getLast? with
  | none => []
  | some last =>
    prev.dropLast ++ [{ last with c := ltp, h := jsMax last.h ltp, l := jsMin last.l ltp }]

/-- The `onMessage` listener applied to one parsed inbound message.
`now` is `Date.now()` at handling time; `currentKey` is the key captured
from the load, `normalizeKey currentKey` the captured `normalizedKey`.
(The `toISOString` call on an invalid tick date — which would throw — is
not modelled; the timestamp is carried as its numeric instant.) -/
def applyMessage (now : ℚ) (currentKey : String) (msg : WsMessage)
    (st : SessionState) : SessionState :=
  match msg with
  | .other => st
  | .liveFeed currentTs feeds =>
    let normalizedKey := normalizeKey currentKey
    match (lookupFeed feeds normalizedKey).orElse (fun _ => lookupFeed feeds currentKey) with
    | none => st
    | some feed =>
      match feed.ltpc with
      | none => st
      | some lt =>
        if truthy lt.ltp then
          let ltp := toNumber lt.ltp
          let ts := jsDateTime (if truthy currentTs then currentTs else .num (.fin now))
          if ltp.isNaN then st
          else
            { st with
              quote := some (updateQuote st.quote ltp ts)
              candles := slideCandles st.candles ⟨ts, ltp⟩
              ohlcCandles := bumpLastCandle st.ohlcCandles ltp }
        else st

/-! ## Initial load (`loadInitial`, src/hooks/useMarketApi.js:219-375) -/

/-- Outcome of one `fetch`: a parsed body, or a non-success HTTP response
with its status and text.  (A network-level rejection also lands in the
same `catch`; the claims under study concern the non-success case.) -/
inductive HttpResp (α : Type) where
  | ok (body : α)
  | err (status : ℕ) (text : String)
deriving DecidableEq, Repr

/-- A raw element of `h.candles`: either an array of cells or some other
JSON value (`Array.isArray(c)` fails → the row maps to `null`). -/
inductive RawCandle where
  | arr (cells : List JSVal)
  | nonArray
deriving DecidableEq, Repr

/-- The parsed history response body `{instrument_key, candles}`.
`instrument_key = none` models an absent/null key; the code's guard
`if (!h.instrument_key)` also rejects the empty string. -/
structure HistoryBody where
  instrument_key : Option String
  candles : Option (List RawCandle)
deriving DecidableEq, Repr

/-- Truthiness of `h.instrument_key`. -/
def keyTruthy : Option String → Bool
  | none => false
  | some s => s ≠ ""

/-- A mapped history row: the `{ line, candle }` pair produced for one
valid raw row. -/
structure MappedRow where
  line : LinePoint
  candle : Candle
deriving DecidableEq, Repr

/-- The row mapper inside `loadInitial` (lines 250-275): destructure
`[timestamp, open, high, low, close]` (missing cells are `undefined`),
coerce with `new Date` / `Number`, and drop the row (`null`) when the
date or any numeric is `NaN`.  The surrounding `try/catch` is dead in
this model: none of the embedded operations throw. -/
def mapRow : RawCandle → Option MappedRow
  | .nonArray => none
  | .arr cells =>
    let timestamp := cells.getD 0 .undef
    let openV := cells.getD 1 .undef
    let highV := cells.getD 2 .undef
    let lowV := cells.getD 3 .undef
    let closeV := cells.getD 4 .undef
    let dateT := jsDateTime timestamp
    let o := toNumber openV
    let hNum := toNumber highV
    let l := toNumber lowV
    let cNum := toNumber closeV
    if dateT.isNaN || o.isNaN || hNum.isNaN || l.isNaN || cNum.isNaN then none
    else some ⟨⟨dateT, cNum⟩, ⟨dateT, o, hNum, l, cNum⟩⟩

/-- `String(err)` for the thrown `Error` objects of `loadInitial`. -/
def errString (msg : String) : String := "Error: " ++ msg

/-- The message of the quote-fetch failure `Error`. -/
def quoteErrMsg (symbol : String) (status : ℕ) (text : String) : String :=
  "Quote fetch failed for " ++ symbol ++ ": " ++ toString status ++ " " ++ text

/-- The message of the history-fetch failure `Error`. -/
def histErrMsg (symbol : String) (status : ℕ) (text : String) : String :=
  "History fetch failed for " ++ symbol ++ ": " ++ toString status ++ " " ++ text

/-- The resolution of `loadInitial(symbol)` applied to the hook state
current at resolution time, given the settled results of the two
concurrent fetches (`Promise.all` join).  Sequentially, as the source
does it:
1. quote not ok → throw; `catch` sets `error` (and `finally` clears
   `loading`), nothing else changes;
2. `setQuote(q)`;
3. history not ok → throw (the quote set in step 2 survives);
4. missing `instrument_key` → throw;
5. set `instrumentKeyRef.current`, map the rows, `setCandles`,
   `setOhlcCandles`, and send one subscribe frame for the key (connection
   assumed open; otherwise the same single frame is deferred to the
   `open` event).
The emitted frames are returned alongside the new state. -/
def loadInitial (symbol : String) (qRes : HttpResp Quote)
    (hRes : HttpResp HistoryBody) (hk : HookState) : HookState × List Frame :=
  match qRes with
  | .err status text =>
    (⟨{ hk.st with error := some (errString (quoteErrMsg symbol status text)),
                   loading := false }, hk.instrumentKey⟩, [])
  | .ok q =>
    let hk1 : HookState := ⟨{ hk.st with quote := some q }, hk.instrumentKey⟩
    match hRes with
    | .err status text =>
      (⟨{ hk1.st with error := some (errString (histErrMsg symbol status text)),
                      loading := false }, hk1.instrumentKey⟩, [])
    | .ok h =>
      if keyTruthy h.instrument_key then
        let currentKey := h.instrument_key.getD ""
        let mapped := (h.candles.getD []).filterMap mapRow
        (⟨{ hk1.st with candles := mapped.map (·.line),
                        ohlcCandles := mapped.map (·.candle),
                        loading := false },
          some currentKey⟩, [.sub currentKey])
      else
        (⟨{ hk1.st with
              error := some (errString "instrument_key not found in history response"),
              loading := false }, hk1.instrumentKey⟩, [])

/-- The synchronous start of the `useEffect` body on mount / symbol
change (lines 197-216): reset the five state fields, then unsubscribe
from the previous key if one is bound (connection assumed open) and null
the key ref. -/
def effectStart (hk : HookState) : HookState × List Frame :=
  (⟨⟨true, none, none, [], []⟩, none⟩,
   match hk.instrumentKey with
   | some k => [.unsub k]
   | none => [])

/-- The effect cleanup (lines 378-395): detach listeners and, when a key
is bound and the connection open, send one unsubscribe frame.  The
cleanup does NOT null `instrumentKeyRef.current` — that is done by the
NEXT effect body (lines 206-216), which therefore sends a second
unsubscribe for the same key on a symbol switch. -/
def cleanupFrames (hk : HookState) : List Frame :=
  match hk.instrumentKey with
  | some k => [.unsub k]
  | none => []

/-! ## Subscription traffic on the wire

`useMarketApi` keeps no reference count.  The frames a hook instance
writes are exactly those of its lifecycle pieces: the previous effect's
cleanup (`cleanupFrames`), the effect body (`effectStart`) and the load
resolution (`loadInitial`).  The connection is taken to be open, and a
load is taken to resolve before the instance's next lifecycle event
(stale interleavings are the subject of the stale-load analysis). -/

/-- Number of subscribe frames for `key` in a frame list. -/
def subCount (fs : List Frame) (key : String) : ℕ :=
  fs.count (.sub key)

/-- Number of unsubscribe frames for `key` in a frame list. -/
def unsubCount (fs : List Frame) (key : String) : ℕ :=
  fs.count (.unsub key)

/-- The state of a hook instance on first mount: the `useState` initial
values (`loading = true`, no error, no quote, empty series) and a null
`instrumentKeyRef`. -/
def initialHook : HookState := ⟨⟨true, none, none, [], []⟩, none⟩

/-- One lifecycle event of a single hook instance: a mount / symbol
change (with the settled results of its two fetches), or an unmount. -/
inductive HookEvent where
  | bind (symbol : String) (qRes : HttpResp Quote) (hRes : HttpResp HistoryBody)
  | unmount
deriving DecidableEq, Repr

/-- One lifecycle step, composed exactly as React runs the source: on a
symbol change, the PREVIOUS effect's cleanup fires first (lines
378-395), then the effect body (lines 197-216), then the load
resolution; on the first mount the key ref is null so the cleanup and
the effect body's unsubscribe contribute nothing.  An unmount runs the
cleanup alone. -/
def hookStep (hk : HookState) : HookEvent → HookState × List Frame
  | .bind symbol qRes hRes =>
    let fs1 := cleanupFrames hk
    let (hk1, fs2) := effectStart hk
    let (hk2, fs3) := loadInitial symbol qRes hRes hk1
    (hk2, fs1 ++ (fs2 ++ fs3))
  | .unmount => (hk, cleanupFrames hk)

/-- Run a hook instance through a sequence of lifecycle events,
collecting every frame written on the socket. -/
def runHook (hk : HookState) : List HookEvent → HookState × List Frame
  | [] => (hk, [])
  | ev :: evs =>
    let (hk1, fs1) := hookStep hk ev
    let (hk2, fs2) := runHook hk1 evs
    (hk2, fs1 ++ fs2)

/-! ## The connection singleton (`getWebSocket`, src/hooks/useMarketApi.js:146-174) -/

/-- `WebSocket.readyState`, as far as the source inspects it. -/
inductive ReadyState where
  | connecting
  | opened
  | closed
deriving DecidableEq, Repr

/-- The module-level connection state: every connection object ever
created (indexed by creation order, carrying its `readyState`) and the
`wsSingleton` reference. -/
structure WsWorld where
  conns : List ReadyState
  wsSingleton : Option ℕ
deriving DecidableEq, Repr

/-- The initial module state: no connection, `wsSingleton = null`. -/
def initialWorld : WsWorld := ⟨[], none⟩

/-- `getWebSocket()`: return the singleton if it exists and is OPEN;
otherwise construct a new `WebSocket` (readyState CONNECTING) and store
it in `wsSingleton`.  Returns the new world and the index of the
returned connection. -/
def getWebSocket (w : WsWorld) : WsWorld × ℕ :=
  match w.wsSingleton with
  | some i =>
    if w.conns.getD i .closed = .opened then (w, i)
    else (⟨w.conns ++ [.connecting], some w.conns.length⟩, w.conns.length)
  | none => (⟨w.conns ++ [.connecting], some w.conns.length⟩, w.conns.length)

/-- Environment events on the connection state. -/
inductive WsEvent where
  | getConnection
  | opens (i : ℕ)
  | closes (i : ℕ)
deriving DecidableEq, Repr

/-- One step of the connection state machine.  `opens i` is connection
`i`'s `open` event; `closes i` runs its `onclose` handler, which sets
`wsSingleton = null` unconditionally (the handler closes over nothing
and does not compare identities). -/
def wsStep (w : WsWorld) : WsEvent → WsWorld
  | .getConnection => (getWebSocket w).1
  | .opens i => ⟨w.conns.set i .opened, w.wsSingleton⟩
  | .closes i => ⟨w.conns.set i .closed, none⟩

/-- Run a sequence of events from the initial module state. -/
def wsRun (evs : List WsEvent) : WsWorld :=
  evs.foldl wsStep initialWorld

/-- Number of live (not CLOSED) connection objects. -/
def liveCount (w : WsWorld) : ℕ :=
  (w.conns.filter (· ≠ .closed)).length

/-! ## Paper trading (`handleTrade`, src/pages/Dashboard.jsx:50-101) -/

/-- A submitted paper trade. -/
structure Trade where
  symbol : String
  type : String
  quantity : ℚ
  price : ℚ
deriving DecidableEq, Repr

/-- One portfolio holding. -/
structure Holding where
  quantity : ℚ
  avgPrice : ℚ
deriving DecidableEq, Repr

/-- The portfolio object: an insertion-ordered string-keyed map, as a
JavaScript object literal behaves. -/
abbrev Portfolio := List (String × Holding)

/-- `portfolio[symbol]`. -/
def Portfolio.lookup (p : Portfolio) (symbol : String) : Option Holding :=
  (List.find? (fun q => q.1 = symbol) p).map (·.2)

/-- `{...prev, [symbol]: h}`: replace in place when the key exists,
append otherwise. -/
def Portfolio.insert (p : Portfolio) (symbol : String) (h : Holding) : Portfolio :=
  if (List.find? (fun q => q.1 = symbol) p).isSome then
    List.map (fun q => if q.1 = symbol then (symbol, h) else q) p
  else p ++ [(symbol, h)]

/-- `const { [symbol]: removed, ...rest } = prev`. -/
def Portfolio.remove (p : Portfolio) (symbol : String) : Portfolio :=
  List.filter (fun q => q.1 ≠ symbol) p

/-- The Dashboard ledger state threaded through `handleTrade`. -/
structure DashState where
  trades : List Trade
  portfolio : Portfolio
  balance : ℚ
deriving DecidableEq

/-- `handleTrade(trade)`: append the trade to `trades` FIRST, then
validate and, only if the validation passes, update balance and
portfolio.  A rejected trade (buy whose cost exceeds the balance, sell
without sufficient holding) alerts and returns after the append. -/
def handleTrade (st : DashState) (t : Trade) : DashState :=
  let st1 : DashState := { st with trades := st.trades ++ [t] }
  if t.type = "buy" then
    let cost := t.quantity * t.price
    if cost > st1.balance then st1
    else
      let existing := (st1.portfolio.lookup t.symbol).getD ⟨0, 0⟩
      let totalQuantity := existing.quantity + t.quantity
      let totalCost := existing.quantity * existing.avgPrice + cost
      { st1 with
        balance := st1.balance - cost,
        portfolio := st1.portfolio.insert t.symbol ⟨totalQuantity, totalCost / totalQuantity⟩ }
  else if t.type = "sell" then
    match st1.portfolio.lookup t.symbol with
    | none => st1
    | some holding =>
      if holding.quantity < t.quantity then st1
      else
        let revenue := t.quantity * t.price
        { st1 with
          balance := st1.balance + revenue,
          portfolio :=
            if holding.quantity - t.quantity = 0 then st1.portfolio.remove t.symbol
            else st1.portfolio.insert t.symbol { holding with quantity := holding.quantity - t.quantity } }
  else st1

/-! ## Helper lemmas -/

/-- Every branch of `handleTrade` starts from the state with the trade
appended; the trades list is therefore extended unconditionally. -/
lemma handleTrade_trades (st : DashState) (t : Trade) :
    (handleTrade st t).trades = st.trades ++ [t] := by
  unfold handleTrade
  dsimp only
  split
  · split
    · rfl
    · rfl
  · split
    · split
      · rfl
      · split
        · rfl
        · rfl
    · rfl

/-! ## Claim C10 -/

/-- C10: `handleTrade` appends every submitted trade to the trades list
before validating it; a rejected trade — a buy whose cost exceeds the
current balance, or a sell of more shares than are held — leaves balance
and portfolio unchanged but is nevertheless recorded in the trades
history. -/
theorem C10_rejected_trade_recorded (st : DashState) (t : Trade)
    (hrej : (t.type = "buy" ∧ st.balance < t.quantity * t.price) ∨
      (t.type = "sell" ∧
        ∀ h, st.portfolio.lookup t.symbol = some h → h.quantity < t.quantity)) :
    handleTrade st t = { st with trades := st.trades ++ [t] } := by
  rcases hrej with ⟨hty, hb⟩ | ⟨hty, hs⟩
  · unfold handleTrade
    rw [if_pos hty, if_pos (by simpa using hb)]
  · unfold handleTrade
    rw [if_neg (by rw [hty]; decide), if_pos hty]
    dsimp only
    cases hl : st.portfolio.lookup t.symbol with
    | none => rfl
    | some holding =>
      dsimp only
      rw [if_pos (hs holding hl)]

/-- Witness for C10: on the initial ledger (balance 100000, empty
portfolio), a buy of 10 shares at price 20000 (cost 200000) is rejected,
leaving balance and portfolio intact while the trade is recorded. -/
theorem C10_rejected_trade_recorded_witness :
    ((Trade.mk "RELIANCE" "buy" 10 20000).type = "buy" ∧
      (DashState.mk [] [] 100000).balance < 10 * 20000) ∧
    handleTrade ⟨[], [], 100000⟩ ⟨"RELIANCE", "buy", 10, 20000⟩
      = ⟨[⟨"RELIANCE", "buy", 10, 20000⟩], [], 100000⟩ :=
  ⟨⟨rfl, by norm_num⟩,
   C10_rejected_trade_recorded ⟨[], [], 100000⟩ ⟨"RELIANCE", "buy", 10, 20000⟩
     (Or.inl ⟨rfl, by norm_num⟩)⟩

/-! ## Claim C1 -/

/-- Concrete quote snapshot for the C1 traces. -/
def exQuoteK : Quote :=
  ⟨.num (.fin 102), .num (.fin 2), .str "t0",
   some ⟨.num (.fin 100), .num (.fin 105), .num (.fin 98), .num (.fin 102)⟩, .str "K"⟩

/-- Concrete history body resolving to the instrument key `"NSE_EQ|K"`. -/
def exHistK : HistoryBody := ⟨some "NSE_EQ|K", some []⟩

/-- Concrete history body resolving to the instrument key `"NSE_EQ|B"`. -/
def exHistKB : HistoryBody := ⟨some "NSE_EQ|B", some []⟩

/-- C1 fails on the code: there is no reference counting.  Two widgets
(two hook instances) each mount and successfully bind the same key, so
the net refcount is 2 > 0 with no release; the claim demands
subscribe − unsubscribe = 1 and no duplicate subscribe frame, but the
two instances emit two subscribe frames (difference 2). -/
theorem C1_counterexample :
    subCount ((runHook initialHook [.bind "K" (.ok exQuoteK) (.ok exHistK)]).2
        ++ (runHook initialHook [.bind "K" (.ok exQuoteK) (.ok exHistK)]).2) "NSE_EQ|K" = 2 ∧
    unsubCount ((runHook initialHook [.bind "K" (.ok exQuoteK) (.ok exHistK)]).2
        ++ (runHook initialHook [.bind "K" (.ok exQuoteK) (.ok exHistK)]).2) "NSE_EQ|K" = 0 ∧
    ¬ ((subCount ((runHook initialHook [.bind "K" (.ok exQuoteK) (.ok exHistK)]).2
            ++ (runHook initialHook [.bind "K" (.ok exQuoteK) (.ok exHistK)]).2) "NSE_EQ|K" : ℤ)
        - (unsubCount ((runHook initialHook [.bind "K" (.ok exQuoteK) (.ok exHistK)]).2
            ++ (runHook initialHook [.bind "K" (.ok exQuoteK) (.ok exHistK)]).2) "NSE_EQ|K" : ℤ)
        = 1) := by
  refine ⟨by decide, by decide, by decide⟩

/-- C1, amended: subscriptions are not reference-counted; with the
connection open, the frames on the wire follow the hook lifecycle
directly.  A successful first mount emits exactly one subscribe frame
for the resolved key; an unmount of a bound instance emits exactly one
unsubscribe frame; a symbol SWITCH on a bound instance emits TWO
unsubscribe frames for the old key — one from the effect cleanup, which
never nulls the key ref, and one from the next effect body — followed
by one subscribe for the new key; and two widgets that mount the same
key emit duplicate subscribe frames while both are bound. -/
theorem C1_no_refcounting (symbol newSymbol k : String) (q q' : Quote)
    (h h' : HistoryBody) (st0 : SessionState)
    (hkey : keyTruthy h.instrument_key = true)
    (hkey' : keyTruthy h'.instrument_key = true) :
    (runHook initialHook [.bind symbol (.ok q) (.ok h)]).2
      = [.sub (h.instrument_key.getD "")] ∧
    (hookStep ⟨st0, some k⟩ .unmount).2 = [.unsub k] ∧
    (hookStep ⟨st0, some k⟩ (.bind newSymbol (.ok q') (.ok h'))).2
      = [.unsub k, .unsub k, .sub (h'.instrument_key.getD "")] ∧
    subCount ((runHook initialHook [.bind symbol (.ok q) (.ok h)]).2
        ++ (runHook initialHook [.bind symbol (.ok q) (.ok h)]).2)
      (h.instrument_key.getD "") = 2 := by
  have hrun : (runHook initialHook [.bind symbol (.ok q) (.ok h)]).2
      = [.sub (h.instrument_key.getD "")] := by
    simp [runHook, hookStep, cleanupFrames, effectStart, initialHook, loadInitial, hkey]
  refine ⟨hrun, rfl, ?_, ?_⟩
  · simp [hookStep, cleanupFrames, effectStart, loadInitial, hkey']
  · rw [hrun]
    simp [subCount]

/-- Witness for C1: concrete traces on the keys `"NSE_EQ|K"` and
`"NSE_EQ|B"` — one subscribe per successful mount, one unsubscribe per
unmount, two unsubscribes plus one subscribe per symbol switch, and two
subscribe frames from two widgets mounting the same key. -/
theorem C1_no_refcounting_witness :
    (keyTruthy exHistK.instrument_key = true ∧
      keyTruthy exHistKB.instrument_key = true) ∧
    ((runHook initialHook [.bind "K" (.ok exQuoteK) (.ok exHistK)]).2
        = [.sub "NSE_EQ|K"] ∧
      (hookStep ⟨initialHook.st, some "NSE_EQ|K"⟩ .unmount).2 = [.unsub "NSE_EQ|K"] ∧
      (hookStep ⟨initialHook.st, some "NSE_EQ|K"⟩
          (.bind "B" (.ok exQuoteK) (.ok exHistKB))).2
        = [.unsub "NSE_EQ|K", .unsub "NSE_EQ|K", .sub "NSE_EQ|B"] ∧
      subCount ((runHook initialHook [.bind "K" (.ok exQuoteK) (.ok exHistK)]).2
          ++ (runHook initialHook [.bind "K" (.ok exQuoteK) (.ok exHistK)]).2)
        "NSE_EQ|K" = 2) :=
  ⟨⟨by decide, by decide⟩,
   C1_no_refcounting "K" "B" "NSE_EQ|K" exQuoteK exQuoteK exHistK exHistKB
     initialHook.st (by decide) (by decide)⟩

/-! ## Claim C5 -/

/-- Folding ticks through the `setCandles` updater keeps the most recent
2000 points of the whole appended stream. -/
lemma foldl_slideCandles (xs : List LinePoint) :
    ∀ s : List LinePoint, s.length ≤ 2000 →
      xs.foldl slideCandles s = (s ++ xs).drop (s.length + xs.length - 2000) := by
  induction xs with
  | nil =>
    intro s hs
    have h0 : s.length + (List.length ([] : List LinePoint)) - 2000 = 0 := by
      simp only [List.length_nil]
      omega
    rw [List.foldl_nil, List.append_nil, h0, List.drop_zero]
  | cons p xs ih =>
    intro s hs
    rw [List.foldl_cons]
    have hle : (slideCandles s p).length ≤ 2000 := by
      simp only [slideCandles, List.length_drop]
      omega
    rw [ih _ hle]
    have hdef : slideCandles s p = (s ++ [p]).drop (s.length + 1 - 2000) := by
      simp [slideCandles]
    have hlen : (slideCandles s p).length = min (s.length + 1) 2000 := by
      simp only [slideCandles, List.length_drop, List.length_append,
        List.length_singleton]
      omega
    rw [hlen, hdef]
    have hk : s.length + 1 - 2000 ≤ (s ++ [p]).length := by
      simp only [List.length_append, List.length_singleton]
      omega
    rw [← List.drop_append_of_le_length hk, List.drop_drop]
    have harr : (s ++ [p]) ++ xs = s ++ p :: xs := by simp
    rw [harr]
    have hidx : s.length + 1 - 2000 + (min (s.length + 1) 2000 + xs.length - 2000)
        = s.length + (p :: xs).length - 2000 := by
      simp only [List.length_cons]
      omega
    rw [hidx]

/-- `(range n).drop m` enumerates `m, m+1, …, n-1`. -/
lemma drop_range (n m : ℕ) : (List.range n).drop m = List.range' m (n - m) := by
  apply List.ext_getElem
  · simp
  · intro i h1 h2
    simp only [List.getElem_drop, List.getElem_range, List.getElem_range']
    omega

/-- C5: the line-point series is a bounded FIFO sliding window of at most
2000 entries: a tick appends one point and evicts the oldest so that the
most recent `min (n+1) 2000` survive; feeding 2500 sequential points
indexed 0..2499 into an empty series leaves exactly the points with
indices 500..2499 in order. -/
theorem C5_sliding_window (f : ℕ → LinePoint) (prev : List LinePoint) (p : LinePoint) :
    (slideCandles prev p).length = min (prev.length + 1) 2000 ∧
    slideCandles prev p = (prev ++ [p]).drop (prev.length + 1 - 2000) ∧
    (List.range 2500).foldl (fun s i => slideCandles s (f i)) []
      = (List.range' 500 2000).map f := by
  refine ⟨?_, by simp [slideCandles], ?_⟩
  · simp only [slideCandles, List.length_drop, List.length_append,
      List.length_singleton]
    omega
  have h1 : (List.range 2500).foldl (fun s i => slideCandles s (f i)) []
      = ((List.range 2500).map f).foldl slideCandles [] := by
    rw [List.foldl_map]
  rw [h1, foldl_slideCandles _ [] (by simp)]
  simp only [List.nil_append, List.length_nil, List.length_map, List.length_range]
  rw [← List.map_drop, drop_range]

/-! ## Claim C8 -/

/-- C8 fails on the code: while a connection is still being established
(readyState CONNECTING), a second `getWebSocket()` call sees a non-OPEN
singleton and constructs a second `WebSocket`, so two live connection
objects exist simultaneously. -/
theorem C8_counterexample :
    liveCount (wsRun [.getConnection, .getConnection]) = 2 ∧
    ¬ liveCount (wsRun [.getConnection, .getConnection]) ≤ 1 := by
  decide

/-- C8, amended: `getWebSocket()` returns the existing connection only
when the singleton exists AND is open; it creates a new connection (and
re-points the singleton at it) whenever no singleton exists or the
existing one is not open — including while one is still being
established, in which case the older live connection is abandoned, not
closed; on close the singleton reference is cleared so the next access
reconnects.  At most one connection is referenced by the singleton, but
more than one live connection object can exist. -/
theorem C8_lazy_singleton (w : WsWorld) (i j : ℕ) :
    (w.wsSingleton = some i → w.conns.getD i .closed = .opened →
      getWebSocket w = (w, i)) ∧
    (w.wsSingleton = none ∨
        (w.wsSingleton = some i ∧ w.conns.getD i .closed ≠ .opened) →
      (getWebSocket w).1 = ⟨w.conns ++ [.connecting], some w.conns.length⟩ ∧
      (getWebSocket w).1.conns.getD w.conns.length .closed = .connecting) ∧
    (wsStep w (.closes j)).wsSingleton = none := by
  refine ⟨?_, ?_, rfl⟩
  · intro hsi hopen
    simp only [List.getD, List.get?_eq_getElem?] at hopen
    simp [getWebSocket, hsi, hopen]
  · intro h
    rcases h with hnone | ⟨hsi, hnot⟩
    · simp [getWebSocket, hnone, List.getD]
    · simp only [List.getD, List.get?_eq_getElem?] at hnot
      simp [getWebSocket, hsi, hnot, List.getD]

/-- Witness for C8: in the state reached by one `getConnection` followed
by that connection's `open` event, the singleton is open, so the theorem
yields that `getWebSocket` returns it unchanged and that closing clears
the singleton. -/
theorem C8_lazy_singleton_witness :
    ((wsRun [.getConnection, .opens 0]).wsSingleton = some 0 ∧
      getWebSocket (wsRun [.getConnection, .opens 0]) = (wsRun [.getConnection, .opens 0], 0)) ∧
    (wsStep (wsRun [.getConnection, .opens 0]) (.closes 0)).wsSingleton = none := by
  refine ⟨⟨by decide, ?_⟩, ?_⟩
  · exact (C8_lazy_singleton (wsRun [.getConnection, .opens 0]) 0 0).1 (by decide) (by decide)
  · exact (C8_lazy_singleton (wsRun [.getConnection, .opens 0]) 0 0).2.2

/-! ## Claim C9 -/

/-- The concrete second session used to refute C9: a loaded session for a
key whose single pipe survives normalization. -/
def stJex : SessionState :=
  ⟨false, none,
   some ⟨.num (.fin 1), .num (.fin 0), .str "t0", some ⟨.num (.fin 1), .num (.fin 2), .num (.fin 0), .num (.fin 1)⟩, .str "J"⟩,
   [⟨.fin 0, .fin 1⟩],
   [⟨.fin 0, .fin 1, .fin 2, .fin 0, .fin 1⟩]⟩

/-- C9 fails on the code: `String.replace` with a string pattern replaces
only the first `|`.  Session J is subscribed to raw key `"A|B|C"`, whose
normalized form is `"A:B|C"`; session K's raw key is `"A:B|C"`.  J and K
are distinct after normalization (`"A:B|C" ≠ "A:B:C"`), yet a live_feed
frame whose feeds map contains only K's key is picked up by J's handler
through its normalized-key lookup, mutating J's session. -/
theorem C9_counterexample :
    normalizeKey "A|B|C" ≠ normalizeKey "A:B|C" ∧
    ("A|B|C" : String) ≠ "A:B|C" ∧
    applyMessage 0 "A|B|C"
        (.liveFeed (.num (.fin 5)) [("A:B|C", ⟨some ⟨.num (.fin 101)⟩⟩)]) stJex
      ≠ stJex := by
  refine ⟨by decide, by decide, by decide⟩

/-- C9, amended: a session is untouched by a live_feed frame whose only
feeds key differs from BOTH the session's raw subscription key and its
normalized form.  (For keys containing at most one pipe delimiter —
every key format the backend documents — this follows from the two keys
being distinct after normalization; the extra hypothesis is forced by
the first-occurrence-only semantics of `String.replace`.) -/
theorem C9_session_isolation (now : ℚ) (keyJ F : String) (feed : Feed)
    (cts : JSVal) (st : SessionState)
    (h1 : normalizeKey keyJ ≠ F) (h2 : keyJ ≠ F) :
    applyMessage now keyJ (.liveFeed cts [(F, feed)]) st = st := by
  have l1 : lookupFeed [(F, feed)] (normalizeKey keyJ) = none := by
    simp [lookupFeed, List.find?, Ne.symm h1]
  have l2 : lookupFeed [(F, feed)] keyJ = none := by
    simp [lookupFeed, List.find?, Ne.symm h2]
  simp [applyMessage, l1, l2, Option.orElse]

/-- Witness for C9: a session bound to the vendor key
`"NSE_EQ|INE002A01018"` is unchanged by a frame carrying only the key
`"NSE_EQ:RELIANCE"`. -/
theorem C9_session_isolation_witness :
    normalizeKey "NSE_EQ|INE002A01018" ≠ "NSE_EQ:RELIANCE" ∧
    ("NSE_EQ|INE002A01018" : String) ≠ "NSE_EQ:RELIANCE" ∧
    applyMessage 0 "NSE_EQ|INE002A01018"
        (.liveFeed (.num (.fin 5)) [("NSE_EQ:RELIANCE", ⟨some ⟨.num (.fin 101)⟩⟩)]) stJex
      = stJex :=
  ⟨by decide, by decide,
   C9_session_isolation 0 "NSE_EQ|INE002A01018" "NSE_EQ:RELIANCE"
     ⟨some ⟨.num (.fin 101)⟩⟩ (.num (.fin 5)) stJex (by decide) (by decide)⟩

/-! ## Claim C2 -/

/-- Concrete quote used as symbol A's late snapshot. -/
def exQuoteA : Quote :=
  ⟨.num (.fin 250), .num (.fin 5), .str "tA", some ⟨.num (.fin 245), .num (.fin 251), .num (.fin 244), .num (.fin 250)⟩, .str "A"⟩

/-- Concrete quote held by the session after symbol B's load. -/
def exQuoteB : Quote :=
  ⟨.num (.fin 90), .num (.fin 1), .str "tB", some ⟨.num (.fin 89), .num (.fin 91), .num (.fin 88), .num (.fin 90)⟩, .str "B"⟩

/-- Concrete history body for symbol A's late response. -/
def exHistA : HistoryBody :=
  ⟨some "NSE_EQ|A",
   some [.arr [.num (.fin 1700000000000), .num (.fin 245), .num (.fin 251), .num (.fin 244), .num (.fin 250)]]⟩

/-- The hook state after symbol B's load has completed. -/
def hkB : HookState :=
  ⟨⟨false, none, some exQuoteB,
    [⟨.fin 1700000100000, .fin 90⟩],
    [⟨.fin 1700000100000, .fin 89, .fin 91, .fin 88, .fin 90⟩]⟩,
   some "NSE_EQ|B"⟩

/-- C2 fails on the code: there is no per-load generation token.  When
symbol A's in-flight load resolves after the session has switched to B,
its resolution runs against the hook state now bound to B and replaces
B's quote, B's line and candle series and the bound subscription key. -/
theorem C2_counterexample :
    (loadInitial "A" (.ok exQuoteA) (.ok exHistA) hkB).1.st.quote ≠ hkB.st.quote ∧
    (loadInitial "A" (.ok exQuoteA) (.ok exHistA) hkB).1.st.candles ≠ hkB.st.candles ∧
    (loadInitial "A" (.ok exQuoteA) (.ok exHistA) hkB).1.st.ohlcCandles ≠ hkB.st.ohlcCandles ∧
    (loadInitial "A" (.ok exQuoteA) (.ok exHistA) hkB).1.instrumentKey ≠ hkB.instrumentKey := by
  refine ⟨by decide, by decide, by decide, by decide⟩

/-- C2, amended: `loadInitial` has no stale-response guard — a late
successful resolution for an abandoned symbol unconditionally overwrites
whatever session state is current at resolution time: the quote becomes
the stale response's quote, the line and candle series become the stale
response's mapped rows, and the subscription key ref becomes the stale
response's instrument key.  (The effect cleanup does detach the stale
load's tick listener, but not its load continuation.) -/
theorem C2_stale_overwrite (symbol : String) (q : Quote) (h : HistoryBody)
    (hk : HookState) (hkey : keyTruthy h.instrument_key = true) :
    (loadInitial symbol (.ok q) (.ok h) hk).1.st.quote = some q ∧
    (loadInitial symbol (.ok q) (.ok h) hk).1.st.candles
      = ((h.candles.getD []).filterMap mapRow).map (·.line) ∧
    (loadInitial symbol (.ok q) (.ok h) hk).1.st.ohlcCandles
      = ((h.candles.getD []).filterMap mapRow).map (·.candle) ∧
    (loadInitial symbol (.ok q) (.ok h) hk).1.instrumentKey
      = some (h.instrument_key.getD "") := by
  simp [loadInitial, hkey]

/-- Witness for C2: symbol A's concrete late responses applied to the
state bound to B. -/
theorem C2_stale_overwrite_witness :
    keyTruthy exHistA.instrument_key = true ∧
    ((loadInitial "A" (.ok exQuoteA) (.ok exHistA) hkB).1.st.quote = some exQuoteA ∧
     (loadInitial "A" (.ok exQuoteA) (.ok exHistA) hkB).1.st.candles
       = ((exHistA.candles.getD []).filterMap mapRow).map (·.line) ∧
     (loadInitial "A" (.ok exQuoteA) (.ok exHistA) hkB).1.st.ohlcCandles
       = ((exHistA.candles.getD []).filterMap mapRow).map (·.candle) ∧
     (loadInitial "A" (.ok exQuoteA) (.ok exHistA) hkB).1.instrumentKey
       = some (exHistA.instrument_key.getD "")) :=
  ⟨by decide, C2_stale_overwrite "A" exQuoteA exHistA hkB (by decide)⟩

/-! ## Claim C3 -/

/-- The hook state right after the effect reset, before any load
resolves. -/
def hkReset : HookState := ⟨⟨true, none, none, [], []⟩, none⟩

/-- C3 fails on the code: when the quote fetch succeeds and the history
fetch fails, `setQuote(q)` has already run before the history status is
checked, so the failed load leaves the successfully fetched quote behind
(partial state) alongside the error. -/
theorem C3_counterexample :
    (loadInitial "RELIANCE" (.ok exQuoteA) (.err 500 "boom") hkReset).1.st.quote
      = some exQuoteA ∧
    (loadInitial "RELIANCE" (.ok exQuoteA) (.err 500 "boom") hkReset).1.st.quote ≠ none ∧
    (loadInitial "RELIANCE" (.ok exQuoteA) (.err 500 "boom") hkReset).1.st.error
      = some "Error: History fetch failed for RELIANCE: 500 boom" := by
  refine ⟨by decide, by decide, by decide⟩

/-- C3, amended: the two fetches are joined (`Promise.all`) and failure
of either fails the whole load, with the error message retaining the
HTTP status and body; when the QUOTE fetch fails the history result is
discarded entirely (the outcome does not depend on it), but when the
HISTORY fetch fails the already-applied quote snapshot is retained, so
the failed load is not all-or-nothing. -/
theorem C3_join_failure (symbol : String) (q : Quote) (hk : HookState)
    (status : ℕ) (text : String) :
    (∀ hRes : HttpResp HistoryBody,
      loadInitial symbol (.err status text) hRes hk
        = (⟨{ hk.st with
              error := some (errString (quoteErrMsg symbol status text)),
              loading := false }, hk.instrumentKey⟩, [])) ∧
    loadInitial symbol (.ok q) (.err status text) hk
      = (⟨{ hk.st with
            quote := some q,
            error := some (errString (histErrMsg symbol status text)),
            loading := false }, hk.instrumentKey⟩, []) :=
  ⟨fun _ => rfl, rfl⟩

/-! ## Claim C6 -/

/-- A successfully mapped row has its line point and candle aligned:
same timestamp, and the line value is the close. -/
lemma mapRow_aligned {r : RawCandle} {m : MappedRow} (h : mapRow r = some m) :
    m.line.t = m.candle.x ∧ m.line.y = m.candle.c := by
  cases r with
  | nonArray => simp [mapRow] at h
  | arr cells =>
    simp only [mapRow] at h
    split at h
    · exact absurd h (by simp)
    · cases h
      exact ⟨rfl, rfl⟩

/-- C6: a history response all of whose rows map successfully (in
particular one with finite numerics and parsable timestamps) loads a
line series and a candle series of the same length as the row list,
pairwise aligned: equal timestamps, and line values equal to candle
closes. -/
theorem C6_series_aligned (symbol : String) (q : Quote) (ik : String)
    (rows : List RawCandle) (hk : HookState) (hik : ik ≠ "")
    (hv : ∀ r ∈ rows, (mapRow r).isSome = true) :
    ((loadInitial symbol (.ok q) (.ok ⟨some ik, some rows⟩) hk).1.st.candles).length
      = rows.length ∧
    ((loadInitial symbol (.ok q) (.ok ⟨some ik, some rows⟩) hk).1.st.ohlcCandles).length
      = rows.length ∧
    ((loadInitial symbol (.ok q) (.ok ⟨some ik, some rows⟩) hk).1.st.candles).map (·.t)
      = ((loadInitial symbol (.ok q) (.ok ⟨some ik, some rows⟩) hk).1.st.ohlcCandles).map (·.x) ∧
    ((loadInitial symbol (.ok q) (.ok ⟨some ik, some rows⟩) hk).1.st.candles).map (·.y)
      = ((loadInitial symbol (.ok q) (.ok ⟨some ik, some rows⟩) hk).1.st.ohlcCandles).map (·.c) := by
  have hkey : keyTruthy (some ik) = true := by
    simp [keyTruthy, hik]
  have hred : (loadInitial symbol (.ok q) (.ok ⟨some ik, some rows⟩) hk).1.st.candles
      = (rows.filterMap mapRow).map (·.line) ∧
      (loadInitial symbol (.ok q) (.ok ⟨some ik, some rows⟩) hk).1.st.ohlcCandles
      = (rows.filterMap mapRow).map (·.candle) := by
    simp [loadInitial, hkey]
  obtain ⟨h1, h2⟩ := hred
  have hlen : (rows.filterMap mapRow).length = rows.length := by
    rw [List.length_filterMap_eq_countP]
    exact List.countP_eq_length.mpr hv
  refine ⟨by rw [h1]; simp [hlen], by rw [h2]; simp [hlen], ?_, ?_⟩
  · rw [h1, h2, List.map_map, List.map_map]
    apply List.map_congr_left
    intro m hm
    obtain ⟨r, _, hmr⟩ := List.mem_filterMap.mp hm
    exact (mapRow_aligned hmr).1
  · rw [h1, h2, List.map_map, List.map_map]
    apply List.map_congr_left
    intro m hm
    obtain ⟨r, _, hmr⟩ := List.mem_filterMap.mp hm
    exact (mapRow_aligned hmr).2

/-- A structurally valid concrete row. -/
def exRowValid : RawCandle :=
  .arr [.num (.fin 1700000000000), .num (.fin 100), .num (.fin 105), .num (.fin 98), .num (.fin 102)]

/-- A concrete row whose close is a non-numeric string (coerces to NaN). -/
def exRowBadClose : RawCandle :=
  .arr [.num (.fin 1700000060000), .num (.fin 100), .num (.fin 105), .num (.fin 98), .str "abc"]

/-- Witness for C6: a two-row history response loads two aligned points
and candles. -/
theorem C6_series_aligned_witness :
    (("NSE_EQ|R" : String) ≠ "" ∧
      ∀ r ∈ [exRowValid, exRowValid], (mapRow r).isSome = true) ∧
    ((loadInitial "RELIANCE" (.ok exQuoteA)
        (.ok ⟨some "NSE_EQ|R", some [exRowValid, exRowValid]⟩) hkReset).1.st.candles).length
      = 2 ∧
    ((loadInitial "RELIANCE" (.ok exQuoteA)
        (.ok ⟨some "NSE_EQ|R", some [exRowValid, exRowValid]⟩) hkReset).1.st.candles).map (·.y)
      = ((loadInitial "RELIANCE" (.ok exQuoteA)
          (.ok ⟨some "NSE_EQ|R", some [exRowValid, exRowValid]⟩) hkReset).1.st.ohlcCandles).map (·.c) := by
  have h := C6_series_aligned "RELIANCE" exQuoteA "NSE_EQ|R"
    [exRowValid, exRowValid] hkReset (by decide) (by decide)
  exact ⟨⟨by decide, by decide⟩, h.1, h.2.2.2⟩

/-! ## Claim C7 -/

/-- C7 fails on the code: the row filter checks only `isNaN`, so an
infinite numeric field passes it.  A row whose close coerces to
`Infinity` (non-finite) is NOT dropped: it is kept, with the infinite
close stored in the candle. -/
theorem C7_counterexample :
    toNumber (.str "Infinity") = .inf ∧
    (mapRow (.arr [.num (.fin 1700000000000), .num (.fin 100), .num (.fin 105),
        .num (.fin 98), .str "Infinity"])).map (·.candle.c) = some .inf ∧
    (mapRow (.arr [.num (.fin 1700000000000), .num (.fin 100), .num (.fin 105),
        .num (.fin 98), .str "Infinity"])).isSome = true := by
  refine ⟨by decide, by decide, by decide⟩

/-- C7, amended: a raw row whose timestamp is unparsable or any of whose
four numeric fields coerces to `NaN` (and any non-array row) is dropped
without throwing and without failing the load; the load still returns
exactly the successfully mapped rows, in order.  Rows with INFINITE
numeric fields are not dropped, and the hook returns only
`{loading, error, quote, candles, ohlcCandles}` — no dropped-row count
is reported. -/
theorem C7_malformed_rows_dropped (symbol : String) (q : Quote) (ik : String)
    (rows : List RawCandle) (hk : HookState) (hik : ik ≠ "") :
    (∀ cells : List JSVal,
      ((jsDateTime (cells.getD 0 .undef)).isNaN = true ∨
        (toNumber (cells.getD 1 .undef)).isNaN = true ∨
        (toNumber (cells.getD 2 .undef)).isNaN = true ∨
        (toNumber (cells.getD 3 .undef)).isNaN = true ∨
        (toNumber (cells.getD 4 .undef)).isNaN = true) →
      mapRow (.arr cells) = none) ∧
    (loadInitial symbol (.ok q) (.ok ⟨some ik, some rows⟩) hk).1.st.error = hk.st.error ∧
    (loadInitial symbol (.ok q) (.ok ⟨some ik, some rows⟩) hk).1.st.candles
      = (rows.filterMap mapRow).map (·.line) ∧
    ((loadInitial symbol (.ok q) (.ok ⟨some ik, some rows⟩) hk).1.st.candles).length
      = rows.countP (fun r => (mapRow r).isSome) := by
  have hkey : keyTruthy (some ik) = true := by
    simp [keyTruthy, hik]
  refine ⟨?_, by simp [loadInitial, hkey], by simp [loadInitial, hkey], ?_⟩
  · intro cells hbad
    simp only [mapRow]
    rcases hbad with hb | hb | hb | hb | hb <;>
      (simp only [List.getD, List.get?_eq_getElem?] at hb; simp [hb])
  · have : (loadInitial symbol (.ok q) (.ok ⟨some ik, some rows⟩) hk).1.st.candles
        = (rows.filterMap mapRow).map (·.line) := by
      simp [loadInitial, hkey]
    rw [this, List.length_map, List.length_filterMap_eq_countP]

/-- Witness for C7: a history response with one valid and one
NaN-close row loads without error, keeping exactly the valid row. -/
theorem C7_malformed_rows_dropped_witness :
    (("NSE_EQ|R" : String) ≠ "") ∧
    mapRow (.arr [.num (.fin 1700000060000), .num (.fin 100), .num (.fin 105),
        .num (.fin 98), .str "abc"]) = none ∧
    (loadInitial "RELIANCE" (.ok exQuoteA)
        (.ok ⟨some "NSE_EQ|R", some [exRowValid, exRowBadClose]⟩) hkReset).1.st.error = none ∧
    ((loadInitial "RELIANCE" (.ok exQuoteA)
        (.ok ⟨some "NSE_EQ|R", some [exRowValid, exRowBadClose]⟩) hkReset).1.st.candles).length
      = [exRowValid, exRowBadClose].countP (fun r => (mapRow r).isSome) := by
  have h := C7_malformed_rows_dropped "RELIANCE" exQuoteA "NSE_EQ|R"
    [exRowValid, exRowBadClose] hkReset (by decide)
  exact ⟨by decide,
    h.1 [.num (.fin 1700000060000), .num (.fin 100), .num (.fin 105), .num (.fin 98), .str "abc"]
      (by decide),
    h.2.1, h.2.2.2⟩

/-! ## Claim C4 -/

/-- Reduction of the tick handler on the found-numeric-price path: when
the feed lookup (normalized key first, raw key second) yields a feed with
a truthy `ltpc.ltp` that coerces to a non-NaN number, the handler
updates quote, line series and candle series. -/
lemma applyMessage_found (now : ℚ) (currentKey : String) (cts : JSVal)
    (feeds : List (String × Feed)) (lt : Ltpc) (st : SessionState)
    (hfeed : (lookupFeed feeds (normalizeKey currentKey)).orElse
        (fun _ => lookupFeed feeds currentKey) = some ⟨some lt⟩)
    (ht : truthy lt.ltp = true)
    (hn : (toNumber lt.ltp).isNaN = false) :
    applyMessage now currentKey (.liveFeed cts feeds) st =
      { st with
        quote := some (updateQuote st.quote (toNumber lt.ltp)
          (jsDateTime (if truthy cts then cts else .num (.fin now)))),
        candles := slideCandles st.candles
          ⟨jsDateTime (if truthy cts then cts else .num (.fin now)), toNumber lt.ltp⟩,
        ohlcCandles := bumpLastCandle st.ohlcCandles (toNumber lt.ltp) } := by
  unfold applyMessage
  dsimp only
  rw [hfeed]
  simp [ht, hn]

/-- The concrete loaded session of the end-to-end example: history
yielded the single row `[1700000000000, 100, 105, 98, 102]`. -/
def exLoaded : SessionState :=
  (loadInitial "RELIANCE" (.ok exQuoteA)
    (.ok ⟨some "NSE_EQ|R", some [exRowValid]⟩) hkReset).1.st

/-- The concrete tick frame of the end-to-end example: ltp 103 for the
subscribed key. -/
def exTick : WsMessage :=
  .liveFeed (.num (.fin 1700000000500)) [("NSE_EQ|R", ⟨some ⟨.num (.fin 103)⟩⟩)]

set_option maxRecDepth 8192 in
/-- C4: applying one tick whose numeric ltp is found under either key
form updates the quote (`last_price = ltp`, `timestamp` = the tick
time, `net_change = ltp - open` when the open price is known/truthy and
unchanged otherwise), mutates only the LAST candle of a non-empty candle
series (`c = ltp`, `h = max(h, ltp)`, `l = min(l, ltp)`, earlier candles
untouched), synthesizes no candle when the series is empty, and appends
one line point through the sliding window.  The end-to-end instance:
after loading history `[[1700000000000,100,105,98,102]]`, a tick with
ltp 103 makes the last candle `{o:100,h:105,l:98,c:103}`, the quote's
last price 103, and appends a line point of value 103. -/
theorem C4_tick_postcondition (now : ℚ) (currentKey : String) (cts : JSVal)
    (feeds : List (String × Feed)) (lt : Ltpc) (st : SessionState)
    (hfeed : (lookupFeed feeds (normalizeKey currentKey)).orElse
        (fun _ => lookupFeed feeds currentKey) = some ⟨some lt⟩)
    (ht : truthy lt.ltp = true)
    (hn : (toNumber lt.ltp).isNaN = false) :
    ((applyMessage now currentKey (.liveFeed cts feeds) st).quote.map (·.last_price)
        = some (.num (toNumber lt.ltp)) ∧
      (applyMessage now currentKey (.liveFeed cts feeds) st).quote.map (·.timestamp)
        = some (.num (jsDateTime (if truthy cts then cts else .num (.fin now)))) ∧
      (∀ q0 oh, st.quote = some q0 → q0.ohlc = some oh → truthy oh.«open» = true →
        (applyMessage now currentKey (.liveFeed cts feeds) st).quote.map (·.net_change)
          = some (.num (jsSub (toNumber lt.ltp) (toNumber oh.«open»)))) ∧
      (∀ q0, st.quote = some q0 →
        (q0.ohlc = none ∨ ∃ oh, q0.ohlc = some oh ∧ truthy oh.«open» = false) →
        (applyMessage now currentKey (.liveFeed cts feeds) st).quote.map (·.net_change)
          = some q0.net_change)) ∧
    ((st.ohlcCandles = [] →
        (applyMessage now currentKey (.liveFeed cts feeds) st).ohlcCandles = []) ∧
      (∀ pre last, st.ohlcCandles = pre ++ [last] →
        (applyMessage now currentKey (.liveFeed cts feeds) st).ohlcCandles
          = pre ++ [{ last with
                      c := toNumber lt.ltp,
                      h := jsMax last.h (toNumber lt.ltp),
                      l := jsMin last.l (toNumber lt.ltp) }])) ∧
    (applyMessage now currentKey (.liveFeed cts feeds) st).candles
      = slideCandles st.candles
          ⟨jsDateTime (if truthy cts then cts else .num (.fin now)), toNumber lt.ltp⟩ ∧
    ((applyMessage 1700000000600 "NSE_EQ|R" exTick exLoaded).ohlcCandles
        = [⟨.fin 1700000000000, .fin 100, .fin 105, .fin 98, .fin 103⟩] ∧
      (applyMessage 1700000000600 "NSE_EQ|R" exTick exLoaded).quote.map (·.last_price)
        = some (.num (.fin 103)) ∧
      exLoaded.candles = [⟨.fin 1700000000000, .fin 102⟩] ∧
      (applyMessage 1700000000600 "NSE_EQ|R" exTick exLoaded).candles
        = exLoaded.candles ++ [⟨.fin 1700000000500, .fin 103⟩]) := by
  rw [applyMessage_found now currentKey cts feeds lt st hfeed ht hn]
  refine ⟨⟨?_, ?_, ?_, ?_⟩, ⟨?_, ?_⟩, ?_, ?_, ?_, ?_, ?_⟩
  · simp [updateQuote]
  · simp [updateQuote]
  · intro q0 oh hq0 hoh hopen
    simp [updateQuote, hq0, hoh, hopen]
  · intro q0 hq0 hnopen
    rcases hnope : q0.ohlc with _ | oh
    · simp [updateQuote, hq0, hnope, truthy]
    · rcases hnopen with h0 | ⟨oh2, hoh2, hf⟩
      · rw [h0] at hnope
        exact absurd hnope (by simp)
      · rw [hoh2] at hnope
        cases hnope
        simp [updateQuote, hq0, hoh2, hf]
  · intro h0
    simp [bumpLastCandle, h0]
  · intro pre last hsplit
    simp [bumpLastCandle, hsplit, List.getLast?_concat, List.dropLast_concat]
  · with_reducible rfl
  · rfl
  · rfl
  · rfl
  · rfl

/-- Witness for C4: the end-to-end example's tick discharges the found-
numeric-price hypotheses concretely. -/
theorem C4_tick_postcondition_witness :
    ((lookupFeed [("NSE_EQ|R", ⟨some ⟨.num (.fin 103)⟩⟩)] (normalizeKey "NSE_EQ|R")).orElse
        (fun _ => lookupFeed [("NSE_EQ|R", ⟨some ⟨.num (.fin 103)⟩⟩)] "NSE_EQ|R")
      = some ⟨some ⟨.num (.fin 103)⟩⟩ ∧
      truthy (Ltpc.mk (.num (.fin 103))).ltp = true ∧
      (toNumber (Ltpc.mk (.num (.fin 103))).ltp).isNaN = false) ∧
    ((applyMessage 1700000000600 "NSE_EQ|R" exTick exLoaded).quote.map (·.last_price)
      = some (.num (toNumber (Ltpc.mk (.num (.fin 103))).ltp)) ∧
     (applyMessage 1700000000600 "NSE_EQ|R" exTick exLoaded).ohlcCandles
      = [⟨.fin 1700000000000, .fin 100, .fin 105, .fin 98, .fin 103⟩]) := by
  have h := C4_tick_postcondition 1700000000600 "NSE_EQ|R"
    (.num (.fin 1700000000500)) [("NSE_EQ|R", ⟨some ⟨.num (.fin 103)⟩⟩)]
    ⟨.num (.fin 103)⟩ exLoaded (by decide) (by decide) (by decide)
  exact ⟨⟨by decide, by decide, by decide⟩, h.1.1, h.2.2.2.1⟩

end Finverse
